import Mathlib

/-!
Shallow embedding of the mcpmux.install repository (src/src/index.ts).

The repository is a small HTTP front-end that serves two constant bash
scripts, an install script (`installScript`) and an APT repository setup
script (`aptSetupScript`), plus an HTML landing page.  The installer
decision logic lives inside the bash text of `installScript`; it is
embedded here as a pure function from an environment description to a
trace of observable events (network calls, subprocess invocations,
filesystem operations, messages) together with an `Except`-style result
mirroring `set -euo pipefail` abort semantics (`fail` and errexit both
terminate the run with a non-zero status).
-/

deriving instance DecidableEq for Except

namespace McpMux

/-- Observable actions of one run of the install script, in order of
occurrence.  Network accesses, subprocess invocations, filesystem writes
and user-facing messages each get a constructor; the warnings that the
claims reason about get dedicated constructors keyed to the source line
that prints them. -/
inductive Event where
  | netLatestRelease
  | netDownload (url : String)
  | netSigDownload (url : String)
  | netKeyFetch
  | runCmd (cmd : String)
  | rmFile (path : String)
  | mkdirP (dir : String)
  | chmodExec (path : String)
  | msgInfo (text : String)
  | msgOk (text : String)
  | msgEcho (text : String)
  | warnSkipVerify
  | warnNoGpg
  | warnNoGpgHint
  | warnVerifyFailed
  | warnNoSignature
  | warnNoAurHelper
  | warnPathMissing
  deriving DecidableEq, Repr

/-- An event is a network access when it is one of the four curl fetches
the script can perform. -/
def Event.isNetwork : Event → Bool
  | .netLatestRelease => true
  | .netDownload _ => true
  | .netSigDownload _ => true
  | .netKeyFetch => true
  | _ => false

/-- Fatal terminations of the script: `fail` calls (exit 1 with a
message) together with errexit aborts of plain commands and of failing
command-substitution pipelines, which exit with the failing command's
status. -/
inductive Fatal where
  | unsupportedArchitecture (arch : String)
  | missingDependency (tool : String)
  | releaseNotFound
  | pipelineFailed (code : Nat)
  | downloadFailed (url : String)
  | commandFailed (cmd : String) (code : Nat)
  | noAurHelper
  | permissionDenied
  deriving DecidableEq, Repr

/-- Process exit status of a fatal termination: `fail` and the explicit
`exit 1` use status 1; errexit propagates the failing command's status. -/
def Fatal.exitCode : Fatal → Nat
  | .pipelineFailed c => c
  | .commandFailed _ c => c
  | _ => 1

/-- Process exit status of a finished run or run fragment. -/
def runExitCode {α : Type} : Except Fatal α → Nat
  | .ok _ => 0
  | .error f => f.exitCode

/-- The five soft outcomes of `verify_signature` (spec taxonomy mapped
onto the function's branches). -/
inductive VerificationOutcome where
  | Verified
  | SkippedByFlag
  | SkippedNoTool
  | SkippedNoSignature
  | FailedSoft
  deriving DecidableEq, Repr

/-- Host environment and mocked external-world behaviour for one run of
the install script: parsed CLI arguments, probe results, and the
success/failure of each network and subprocess operation the script can
attempt.  Fields default to a benign configuration so concrete test
environments can mention only the fields they constrain. -/
structure Env where
  versionArg : Option String := none
  skipVerify : Bool := false
  hasCurl : Bool := true
  archId : String := "x86_64"
  releaseFetchOk : Bool := true
  releaseResponse : List String := []
  hasAptRepoConfigured : Bool := false
  hasAptGet : Bool := false
  hasDnf : Bool := false
  hasPacman : Bool := false
  hasYay : Bool := false
  hasParu : Bool := false
  hasGpg : Bool := false
  sigDownloadOk : Bool := false
  keyAlreadyImported : Bool := false
  gpgVerifyOk : Bool := false
  artifactDownloadOk : Bool := true
  managerInstallOk : Bool := true
  managerInstallCode : Nat := 0
  aptUpdateOk : Bool := true
  aptUpdateCode : Nat := 0
  aurInstallOk : Bool := true
  aurInstallCode : Nat := 0
  pathVar : String := ""
  home : String := "/root"

/-- Character-list version of "pattern is an initial segment of text". -/
def listLeadMatch : List Char → List Char → Bool
  | [], _ => true
  | _ :: _, [] => false
  | p :: ps, c :: cs => p = c && listLeadMatch ps cs

/-- Character-list version of "pattern occurs somewhere in text". -/
def listSubMatch (pat : List Char) : List Char → Bool
  | [] => listLeadMatch pat []
  | c :: cs => listLeadMatch pat (c :: cs) || listSubMatch pat cs

/-- `strContains s pat` holds when `pat` occurs as a substring of `s`
(the behaviour of `grep` fixed-line filtering and of the JS
`String.includes` used for user-agent sniffing). -/
def strContains (s pat : String) : Bool :=
  listSubMatch pat.toList s.toList

/-- `uname -m` mapping of the script's `case` statement: `x86_64` and
`aarch64` map to the release architecture names, everything else is
unsupported. -/
def archMap : String → Option String
  | "x86_64" => some "amd64"
  | "aarch64" => some "arm64"
  | _ => none

/-- Characters captured by `[^"]*"` after a `"v` occurrence: the prefix
up to the first `"`, provided a closing quote exists. -/
def captureV : List Char → Option (List Char)
  | [] => none
  | c :: cs => if c = '"' then some [] else (captureV cs).map (c :: ·)

/-- The capture of the last `"v` occurrence that is followed by a closing
quote, mirroring the greedy leading `.*` of the sed program
`s/.*"v\([^"]*\)".*/\1/`. -/
def lastVMatch : List Char → Option (List Char)
  | [] => none
  | c :: cs =>
    match lastVMatch cs with
    | some r => some r
    | none =>
      if c = '"' then
        match cs with
        | 'v' :: rest => captureV rest
        | _ => none
      else none

/-- One line through `sed 's/.*"v\([^"]*\)".*/\1/'`: substitute the
capture when the pattern matches, otherwise pass the line through
unchanged. -/
def sedLine (l : String) : String :=
  match lastVMatch l.toList with
  | some cap => String.mk cap
  | none => l

/-- The `grep · | head -1 | sed ·` pipeline of the version resolver over
the metadata response lines: `none` when no line contains the quoted
`tag_name` key (grep then exits 1, failing the pipeline under pipefail),
otherwise the sed transform of the first such line. -/
def extractVersion (lines : List String) : Option String :=
  match lines.filter (fun l => strContains l "\"tag_name\"") with
  | [] => none
  | l :: _ => some (sedLine l)

/-- Lines delivered by the metadata curl: the response body on success,
nothing when the fetch fails (grep then sees empty input). -/
def fetchedLines (env : Env) : List String :=
  if env.releaseFetchOk then env.releaseResponse else []

/-- Version resolution (script lines 106-113): an explicit nonempty
`--version` argument is used verbatim with no network access; otherwise
the latest-release endpoint is queried and the tag extracted.  A pipeline
with no tag line aborts via errexit with the grep status 1; an extracted
empty tag hits `fail "Could not determine latest version"`. -/
def resolveVersion (env : Env) : List Event × Except Fatal String :=
  let v0 := match env.versionArg with
    | some v => v
    | none => ""
  if v0 = "" then
    let evs := [Event.msgInfo "Fetching latest release...", Event.netLatestRelease]
    match extractVersion (fetchedLines env) with
    | none => (evs, .error (.pipelineFailed 1))
    | some v =>
      if v = "" then (evs, .error .releaseNotFound) else (evs, .ok v)
  else ([], .ok v0)

/-- Split a character list at every occurrence of a separator character
(structural-recursion analogue of `String.splitOn` for a one-character
separator, so that concrete runs reduce inside the kernel). -/
def splitCharsOn (sep : Char) : List Char → List (List Char)
  | [] => [[]]
  | c :: cs =>
    let r := splitCharsOn sep cs
    if c = sep then [] :: r
    else
      match r with
      | [] => [[c]]
      | h :: t => (c :: h) :: t

/-- `basename` of a slash-separated path. -/
def baseName (p : String) : String :=
  String.mk ((splitCharsOn '/' p.toList).getLastD p.toList)

/-- `verify_signature` (script lines 119-148).  Every branch returns
normally (the function contains no `fail` and every failing command is
guarded), so the codomain carries no fatal case; the returned outcome
labels the branch taken using the spec's `VerificationOutcome` names. -/
def verify_signature (env : Env) (file version : String) :
    List Event × VerificationOutcome :=
  if env.skipVerify then
    ([Event.warnSkipVerify], .SkippedByFlag)
  else if !env.hasGpg then
    ([Event.warnNoGpg, Event.warnNoGpgHint], .SkippedNoTool)
  else
    let sigUrl := "https://github.com/mcpmux/mcp-mux/releases/download/v" ++
      version ++ "/" ++ baseName file ++ ".sig"
    if env.sigDownloadOk then
      ([Event.netSigDownload sigUrl, Event.runCmd "gpg --list-keys hello@mcpmux.com"] ++
        (if env.keyAlreadyImported then []
         else [Event.netKeyFetch, Event.runCmd "gpg --import --quiet"]) ++
        [Event.runCmd ("gpg --verify " ++ file ++ ".sig " ++ file)] ++
        (if env.gpgVerifyOk then [Event.msgOk "Signature verified"]
         else [Event.warnVerifyFailed]) ++
        [Event.rmFile (file ++ ".sig")],
       if env.gpgVerifyOk then .Verified else .FailedSoft)
    else
      ([Event.netSigDownload sigUrl, Event.warnNoSignature], .SkippedNoSignature)

/-- `install_deb` (script lines 152-168): download the `.deb` to
`/tmp/mcpmux.deb`, verify, install via apt-get, remove the temp file.
A failed download hits `fail`; a failed install aborts via errexit
before the `rm -f`. -/
def install_deb (env : Env) (version arch : String) :
    List Event × Except Fatal Unit :=
  let debName := "mcpmux_" ++ version ++ "_" ++ arch ++ ".deb"
  let debUrl := "https://github.com/mcpmux/mcp-mux/releases/download/v" ++
    version ++ "/" ++ debName
  let pre := [Event.msgInfo "Downloading .deb package...", Event.netDownload debUrl]
  if !env.artifactDownloadOk then (pre, .error (.downloadFailed debUrl))
  else
    let ver := verify_signature env "/tmp/mcpmux.deb" version
    let evs := pre ++ ver.1 ++
      [Event.msgInfo "Installing...",
       Event.runCmd "sudo apt-get install -y /tmp/mcpmux.deb"]
    if !env.managerInstallOk then
      (evs, .error (.commandFailed "sudo apt-get install -y /tmp/mcpmux.deb"
        env.managerInstallCode))
    else
      (evs ++ [Event.rmFile "/tmp/mcpmux.deb", Event.msgEcho "",
        Event.msgInfo "Tip: For automatic updates via apt, add the McpMux repository:",
        Event.msgEcho "  curl -fsSL https://install.mcpmux.com/apt | sudo bash"],
       .ok ())

/-- `install_rpm` (script lines 170-182): same shape as `install_deb`
with the `.rpm` naming convention and dnf. -/
def install_rpm (env : Env) (version arch : String) :
    List Event × Except Fatal Unit :=
  let rpmName := "mcpmux-" ++ version ++ "-1." ++ arch ++ ".rpm"
  let rpmUrl := "https://github.com/mcpmux/mcp-mux/releases/download/v" ++
    version ++ "/" ++ rpmName
  let pre := [Event.msgInfo "Downloading .rpm package...", Event.netDownload rpmUrl]
  if !env.artifactDownloadOk then (pre, .error (.downloadFailed rpmUrl))
  else
    let ver := verify_signature env "/tmp/mcpmux.rpm" version
    let evs := pre ++ ver.1 ++
      [Event.msgInfo "Installing...",
       Event.runCmd "sudo dnf install -y /tmp/mcpmux.rpm"]
    if !env.managerInstallOk then
      (evs, .error (.commandFailed "sudo dnf install -y /tmp/mcpmux.rpm"
        env.managerInstallCode))
    else (evs ++ [Event.rmFile "/tmp/mcpmux.rpm"], .ok ())

/-- `install_pacman` (script lines 184-203): prefer yay, then paru; with
neither helper the script prints remediation instructions and exits 1. -/
def install_pacman (env : Env) : List Event × Except Fatal Unit :=
  if env.hasYay then
    ([Event.msgInfo "Installing from AUR via yay...", Event.runCmd "yay -S mcpmux-bin"],
     if env.aurInstallOk then .ok ()
     else .error (.commandFailed "yay -S mcpmux-bin" env.aurInstallCode))
  else if env.hasParu then
    ([Event.msgInfo "Installing from AUR via paru...", Event.runCmd "paru -S mcpmux-bin"],
     if env.aurInstallOk then .ok ()
     else .error (.commandFailed "paru -S mcpmux-bin" env.aurInstallCode))
  else
    ([Event.warnNoAurHelper, Event.msgEcho "",
      Event.msgEcho "Option 1: Install an AUR helper first:",
      Event.msgEcho "  sudo pacman -S --needed git base-devel",
      Event.msgEcho "  git clone https://aur.archlinux.org/yay-bin.git && cd yay-bin && makepkg -si",
      Event.msgEcho "  yay -S mcpmux-bin",
      Event.msgEcho "",
      Event.msgEcho "Option 2: Download the AppImage:",
      Event.msgEcho "  https://github.com/mcpmux/mcp-mux/releases/latest"],
     .error .noAurHelper)

/-- Colon-separated entries of the PATH variable, as produced by
`tr ':' '\n'` feeding line-wise grep. -/
def pathEntries (p : String) : List String :=
  (splitCharsOn ':' p.toList).map String.mk

/-- Whole-line match of a basic regular expression consisting of literal
characters and `.` (which matches any single character) — the fragment of
BRE semantics that `grep -qx "$install_dir"` exercises, since the fixed
`/.local/bin` suffix contributes only dots as metacharacters. -/
def breDotMatch : List Char → List Char → Bool
  | [], [] => true
  | p :: ps, c :: cs => (p = '.' || p = c) && breDotMatch ps cs
  | _, _ => false

/-- String wrapper of `breDotMatch`. -/
def breMatch (pat line : String) : Bool :=
  breDotMatch pat.toList line.toList

/-- `install_appimage` (script lines 205-228): create the user-local bin
directory, download the AppImage, verify, mark it executable, and warn
when no PATH entry matches the install directory under `grep -qx`. -/
def install_appimage (env : Env) (version arch : String) :
    List Event × Except Fatal Unit :=
  let appName := "McpMux_" ++ version ++ "_" ++ arch ++ ".AppImage"
  let appUrl := "https://github.com/mcpmux/mcp-mux/releases/download/v" ++
    version ++ "/" ++ appName
  let installDir := env.home ++ "/.local/bin"
  let installPath := installDir ++ "/McpMux.AppImage"
  let pre := [Event.msgInfo "No supported package manager found — installing AppImage...",
    Event.mkdirP installDir, Event.msgInfo "Downloading AppImage...",
    Event.netDownload appUrl]
  if !env.artifactDownloadOk then (pre, .error (.downloadFailed appUrl))
  else
    let ver := verify_signature env installPath version
    let evs := pre ++ ver.1 ++
      [Event.chmodExec installPath, Event.msgOk ("Installed to " ++ installPath)]
    if (pathEntries env.pathVar).any (fun e => breMatch installDir e) then
      (evs, .ok ())
    else
      (evs ++ [Event.msgEcho "", Event.warnPathMissing,
        Event.msgEcho "  echo export PATH=\"$HOME/.local/bin:$PATH\" >> ~/.bashrc",
        Event.msgEcho "  source ~/.bashrc"],
       .ok ())

/-- The managed-repository branch of the main dispatch (script line 235):
`sudo apt-get update && sudo apt-get install -y mcpmux`, each failure
aborting via errexit. -/
def managedRepoInstall (env : Env) : List Event × Except Fatal Unit :=
  let evs := [Event.msgInfo "McpMux APT repository detected — using apt...",
    Event.runCmd "sudo apt-get update"]
  if !env.aptUpdateOk then
    (evs, .error (.commandFailed "sudo apt-get update" env.aptUpdateCode))
  else
    let evs := evs ++ [Event.runCmd "sudo apt-get install -y mcpmux"]
    if !env.managerInstallOk then
      (evs, .error (.commandFailed "sudo apt-get install -y mcpmux"
        env.managerInstallCode))
    else (evs, .ok ())

/-- The closed strategy variant set of the spec's data model. -/
inductive PackageManagerStrategy where
  | ManagedRepo
  | AptGet
  | Dnf
  | PacmanAUR
  | AppImageFallback
  deriving DecidableEq, Repr

/-- The four capability flags the main dispatch reads: the managed-repo
source file existing, and the apt-get / dnf / pacman presence probes. -/
structure CapabilityFlags where
  hasAptRepoConfigured : Bool
  hasAptGet : Bool
  hasDnf : Bool
  hasPacman : Bool
  deriving DecidableEq, Repr

/-- Projection of a run environment onto the four dispatch flags. -/
def capabilityFlags (env : Env) : CapabilityFlags :=
  ⟨env.hasAptRepoConfigured, env.hasAptGet, env.hasDnf, env.hasPacman⟩

/-- Raw precondition of each strategy, before precedence is applied: the
condition its guard in the if/elif chain tests, with the final `else`
always applicable. -/
def strategyGuard (f : CapabilityFlags) : PackageManagerStrategy → Bool
  | .ManagedRepo => f.hasAptRepoConfigured
  | .AptGet => f.hasAptGet
  | .Dnf => f.hasDnf
  | .PacmanAUR => f.hasPacman
  | .AppImageFallback => true

/-- The fixed evaluation order of the main dispatch (script lines
232-244). -/
def strategyPrecedence : List PackageManagerStrategy :=
  [.ManagedRepo, .AptGet, .Dnf, .PacmanAUR, .AppImageFallback]

/-- Strategy selection: the if/elif chain of the main dispatch as a pure
function of the four capability flags. -/
def selectStrategy (f : CapabilityFlags) : PackageManagerStrategy :=
  if f.hasAptRepoConfigured then .ManagedRepo
  else if f.hasAptGet then .AptGet
  else if f.hasDnf then .Dnf
  else if f.hasPacman then .PacmanAUR
  else .AppImageFallback

/-- Handler of each strategy variant. -/
def strategyRun (env : Env) (version arch : String) :
    PackageManagerStrategy → List Event × Except Fatal Unit
  | .ManagedRepo => managedRepoInstall env
  | .AptGet => install_deb env version arch
  | .Dnf => install_rpm env version arch
  | .PacmanAUR => install_pacman env
  | .AppImageFallback => install_appimage env version arch

/-- The main dispatch if/elif chain (script lines 232-244), verbatim. -/
def dispatch (env : Env) (version arch : String) :
    List Event × Except Fatal Unit :=
  if env.hasAptRepoConfigured then managedRepoInstall env
  else if env.hasAptGet then install_deb env version arch
  else if env.hasDnf then install_rpm env version arch
  else if env.hasPacman then install_pacman env
  else install_appimage env version arch

/-- One full run of the install script after argument parsing: the curl
prerequisite check, architecture detection, version resolution, the main
dispatch, and the final success message, with errexit/fail aborts
propagated. -/
def installRun (env : Env) : List Event × Except Fatal Unit :=
  if !env.hasCurl then ([], .error (.missingDependency "curl"))
  else
    match archMap env.archId with
    | none => ([], .error (.unsupportedArchitecture env.archId))
    | some arch =>
      let evs := [Event.msgInfo ("Detected architecture: " ++ arch)]
      let rv := resolveVersion env
      match rv.2 with
      | .error f => (evs ++ rv.1, .error f)
      | .ok version =>
        let evs := evs ++ rv.1 ++
          [Event.msgInfo ("Installing McpMux v" ++ version)]
        let d := dispatch env version arch
        match d.2 with
        | .error f => (evs ++ d.1, .error f)
        | .ok _ =>
          (evs ++ d.1 ++ [Event.msgEcho "",
            Event.msgOk "McpMux installed successfully!",
            Event.msgEcho "Run mcpmux to start."],
           .ok ())

/-- Contents written into the system keyring file by the APT setup
script: the binary dearmored form of the fetched armored key.  Since
`gpg --dearmor` is a deterministic transformation, the binary bytes are
represented by the armored source they were derived from; two keyring
files are byte-identical exactly when their armored sources coincide. -/
structure KeyringFile where
  armoredSource : String
  deriving DecidableEq, Repr

/-- The two files the APT setup script writes. -/
structure AptFS where
  keyring : Option KeyringFile
  sources : Option String
  deriving DecidableEq, Repr

/-- Environment of one run of the APT setup script. -/
structure AptEnv where
  isRoot : Bool := true
  keyData : String := "armored-key"
  dpkgArch : String := "amd64"
  keyPipelineOk : Bool := true
  keyPipelineCode : Nat := 0
  aptUpdateOk : Bool := true
  aptUpdateCode : Nat := 0
  aptInstallOk : Bool := true
  aptInstallCode : Nat := 0
  deriving Repr

/-- The source-list line written by the APT setup script (line 271). -/
def mcpmuxSourceLine (env : AptEnv) : String :=
  "deb [arch=" ++ env.dpkgArch ++
    " signed-by=/usr/share/keyrings/mcpmux-archive-keyring.gpg] https://apt.mcpmux.com stable main"

/-- One run of `aptSetupScript` (source lines 252-281) over the modelled
file-system state: root check, keyring write, source-list write, index
refresh and install, with errexit aborts.  On the key-pipeline failure
path the modelled state is left unchanged (least commitment about a
partially written keyring). -/
def aptSetupRun (env : AptEnv) (fs : AptFS) : Except Fatal Unit × AptFS :=
  if !env.isRoot then (.error .permissionDenied, fs)
  else if !env.keyPipelineOk then
    (.error (.commandFailed "curl key.gpg | gpg --dearmor" env.keyPipelineCode), fs)
  else
    let fs := { fs with keyring := some ⟨env.keyData⟩ }
    let fs := { fs with sources := some (mcpmuxSourceLine env) }
    if !env.aptUpdateOk then
      (.error (.commandFailed "apt-get update" env.aptUpdateCode), fs)
    else if !env.aptInstallOk then
      (.error (.commandFailed "apt-get install -y mcpmux" env.aptInstallCode), fs)
    else (.ok (), fs)

/-- An HTTP request as the front-end inspects it: the path, the optional
User-Agent header, and the optional `raw` query parameter. -/
structure Request where
  path : String
  userAgent : Option String := none
  rawParam : Option String := none
  deriving DecidableEq, Repr

/-- Which constant generator produced a response body.  Each of the
front-end's bodies is the value of a nullary pure function of the
source (`installScript`, `aptSetupScript`, `landingPage`, the health
JSON, the 404 text), so two bodies are byte-identical exactly when they
carry the same tag. -/
inductive Body where
  | installScriptBody
  | aptScriptBody
  | landingPageBody
  | healthBody
  | notFoundBody
  deriving DecidableEq, Repr

/-- An HTTP response: status, Content-Type, and body tag. -/
structure Response where
  status : Nat
  contentType : String
  body : Body
  deriving DecidableEq, Repr

/-- JS truthiness of an optional query-parameter string: absent and
empty are falsy, any other string is truthy. -/
def truthy : Option String → Bool
  | none => false
  | some s => s ≠ ""

/-- The browser sniff of the root handler (source line 10), over the
User-Agent after the `?? ''` default. -/
def isBrowserUA (ua : String) : Bool :=
  strContains ua "Mozilla" || strContains ua "Chrome" || strContains ua "Safari"

/-- The Hono app's routing (source lines 8-49): the root handler with
user-agent sniffing and raw-mode override, the explicit script path, the
APT setup path, the health check, and the 404 fallback. -/
def handleRequest (r : Request) : Response :=
  if r.path = "/" then
    let ua := r.userAgent.getD ""
    if isBrowserUA ua && !truthy r.rawParam then
      { status := 200, contentType := "text/html; charset=UTF-8",
        body := .landingPageBody }
    else
      { status := 200, contentType := "text/plain; charset=utf-8",
        body := .installScriptBody }
  else if r.path = "/install.sh" then
    { status := 200, contentType := "text/plain; charset=utf-8",
      body := .installScriptBody }
  else if r.path = "/apt" then
    { status := 200, contentType := "text/plain; charset=utf-8",
      body := .aptScriptBody }
  else if r.path = "/health" then
    { status := 200, contentType := "application/json; charset=UTF-8",
      body := .healthBody }
  else
    { status := 404, contentType := "text/plain; charset=UTF-8",
      body := .notFoundBody }

/-- A request is served the raw script: non-browser User-Agent (missing
header included, via the `?? ''` default) or a truthy `raw` query
parameter. -/
def rawModeRequest (r : Request) : Bool :=
  !isBrowserUA (r.userAgent.getD "") || truthy r.rawParam

end McpMux

namespace McpMux

/-- C1: for every combination of the probed capability flags the main
dispatch selects exactly one strategy (the unique first match in the
fixed precedence ManagedRepo, AptGet, Dnf, PacmanAUR, AppImageFallback),
selection is a pure function of the four flags, the run's dispatch
factors through that function, and with both apt-get and dnf present
(and the managed-repo source file, which the same precedence puts first,
absent) AptGet is selected. -/
theorem c1_strategy_dispatch :
    (∀ (f : CapabilityFlags) (s : PackageManagerStrategy),
      strategyPrecedence.find? (strategyGuard f) = some s ↔ s = selectStrategy f) ∧
    (∀ f : CapabilityFlags, ∃! s : PackageManagerStrategy,
      strategyPrecedence.find? (strategyGuard f) = some s) ∧
    (∀ f : CapabilityFlags, f.hasAptGet = true → f.hasDnf = true →
      f.hasAptRepoConfigured = false → selectStrategy f = .AptGet) ∧
    (∀ (env : Env) (version arch : String),
      dispatch env version arch =
        strategyRun env version arch (selectStrategy (capabilityFlags env))) := by
  have key : ∀ (f : CapabilityFlags) (s : PackageManagerStrategy),
      strategyPrecedence.find? (strategyGuard f) = some s ↔ s = selectStrategy f := by
    intro f s
    obtain ⟨a, b, c, d⟩ := f
    cases a <;> cases b <;> cases c <;> cases d <;> cases s <;> decide
  refine ⟨key, ?_, ?_, ?_⟩
  · intro f
    exact ⟨selectStrategy f, (key f _).mpr rfl, fun y hy => (key f y).mp hy⟩
  · intro f h1 h2 h3
    simp [selectStrategy, h1, h3]
  · intro env version arch
    cases hr : env.hasAptRepoConfigured <;> cases hg : env.hasAptGet <;>
      cases hd : env.hasDnf <;> cases hp : env.hasPacman <;>
      simp [dispatch, strategyRun, selectStrategy, capabilityFlags, hr, hg, hd, hp]

/-- Witness for C1 at a concrete flag combination: apt-get and dnf both
present, no managed repository configured. -/
theorem c1_strategy_dispatch_witness :
    selectStrategy ⟨false, true, true, true⟩ = .AptGet :=
  c1_strategy_dispatch.2.2.1 ⟨false, true, true, true⟩ rfl rfl rfl

/-- C2: verification always returns one of the five soft outcomes and
never a fatal condition, and the deb/rpm callers always reach the
manager-specific install invocation after a successful download,
whatever the verification outcome was. -/
theorem c2_verification_soft :
    (∀ (env : Env) (file version : String),
      (verify_signature env file version).2 = .Verified ∨
      (verify_signature env file version).2 = .SkippedByFlag ∨
      (verify_signature env file version).2 = .SkippedNoTool ∨
      (verify_signature env file version).2 = .SkippedNoSignature ∨
      (verify_signature env file version).2 = .FailedSoft) ∧
    (∀ (env : Env) (version arch : String), env.artifactDownloadOk = true →
      Event.runCmd "sudo apt-get install -y /tmp/mcpmux.deb" ∈
        (install_deb env version arch).1) ∧
    (∀ (env : Env) (version arch : String), env.artifactDownloadOk = true →
      Event.runCmd "sudo dnf install -y /tmp/mcpmux.rpm" ∈
        (install_rpm env version arch).1) := by
  refine ⟨?_, ?_, ?_⟩
  · intro env file version
    cases h : (verify_signature env file version).2 <;> simp
  · intro env version arch h
    cases hm : env.managerInstallOk <;> simp [install_deb, h, hm]
  · intro env version arch h
    cases hm : env.managerInstallOk <;> simp [install_rpm, h, hm]

/-- Witness for C2 at a concrete environment. -/
theorem c2_verification_soft_witness :
    Event.runCmd "sudo apt-get install -y /tmp/mcpmux.deb" ∈
      (install_deb {} "0.0.12" "amd64").1 :=
  c2_verification_soft.2.1 {} "0.0.12" "amd64" rfl

/-- C3: the architecture case maps x86_64 to amd64 and aarch64 to arm64,
and any other probed identifier (the prerequisite curl check having
passed, since it runs first) terminates the run with
UnsupportedArchitecture, exit code 1, and an event trace containing no
network access. -/
theorem c3_architecture_gate :
    archMap "x86_64" = some "amd64" ∧ archMap "aarch64" = some "arm64" ∧
    ∀ env : Env, env.hasCurl = true → archMap env.archId = none →
      (installRun env).2 = .error (.unsupportedArchitecture env.archId) ∧
      runExitCode (installRun env).2 = 1 ∧
      ∀ e ∈ (installRun env).1, e.isNetwork = false := by
  refine ⟨by decide, by decide, ?_⟩
  intro env hc ha
  simp [installRun, hc, ha, runExitCode, Fatal.exitCode]

/-- Witness for C3 at the concrete identifier riscv64. -/
theorem c3_architecture_gate_witness :
    (installRun { archId := "riscv64" }).2 =
      .error (.unsupportedArchitecture "riscv64") ∧
    runExitCode (installRun { archId := "riscv64" }).2 = 1 :=
  ⟨(c3_architecture_gate.2.2 { archId := "riscv64" } rfl (by decide)).1,
   (c3_architecture_gate.2.2 { archId := "riscv64" } rfl (by decide)).2.1⟩

/-- C6: with the skip flag set, verification returns SkippedByFlag and
the trace contains neither the detached-signature download nor the
public-key retrieval, nor any network access at all. -/
theorem c6_skip_verify :
    ∀ (env : Env) (file version : String), env.skipVerify = true →
      (verify_signature env file version).2 = .SkippedByFlag ∧
      (∀ u, Event.netSigDownload u ∉ (verify_signature env file version).1) ∧
      Event.netKeyFetch ∉ (verify_signature env file version).1 ∧
      ∀ e ∈ (verify_signature env file version).1, e.isNetwork = false := by
  intro env file version h
  simp [verify_signature, h, Event.isNetwork]

/-- Witness for C6 at a concrete environment. -/
theorem c6_skip_verify_witness :
    (verify_signature { skipVerify := true } "/tmp/mcpmux.deb" "0.0.12").2 =
      .SkippedByFlag ∧
    Event.netKeyFetch ∉
      (verify_signature { skipVerify := true } "/tmp/mcpmux.deb" "0.0.12").1 :=
  ⟨(c6_skip_verify { skipVerify := true } "/tmp/mcpmux.deb" "0.0.12" rfl).1,
   (c6_skip_verify { skipVerify := true } "/tmp/mcpmux.deb" "0.0.12" rfl).2.2.1⟩

end McpMux

namespace McpMux

/-- Helper: the only file `verify_signature` ever removes is the
downloaded detached-signature file. -/
theorem verify_signature_rmFile_only (env : Env) (file version p : String) :
    Event.rmFile p ∈ (verify_signature env file version).1 → p = file ++ ".sig" := by
  cases hs : env.skipVerify <;> cases hg : env.hasGpg <;>
    cases hsd : env.sigDownloadOk <;> cases hk : env.keyAlreadyImported <;>
    cases hgv : env.gpgVerifyOk <;>
    simp [verify_signature, hs, hg, hsd, hk, hgv]

/-- Helper: `verify_signature` never emits the PATH warning. -/
theorem verify_signature_no_path_warn (env : Env) (file version : String) :
    Event.warnPathMissing ∉ (verify_signature env file version).1 := by
  cases hs : env.skipVerify <;> cases hg : env.hasGpg <;>
    cases hsd : env.sigDownloadOk <;> cases hk : env.keyAlreadyImported <;>
    cases hgv : env.gpgVerifyOk <;>
    simp [verify_signature, hs, hg, hsd, hk, hgv]

/-- C4 (amended): a nonempty explicit version argument is used verbatim
with no metadata call; an empty or absent one triggers the metadata
query, whose extracted tag (leading v stripped, v0.0.12 resolving to
0.0.12) becomes the version; an extracted empty tag is the fatal
ReleaseNotFound failure, while a response with no tag field aborts
fatally with exit code 1 through the failed extraction pipeline. -/
theorem c4_version_resolution :
    (∀ (env : Env) (v : String), env.versionArg = some v → v ≠ "" →
      (resolveVersion env).2 = .ok v ∧
      Event.netLatestRelease ∉ (resolveVersion env).1) ∧
    (∀ env : Env, env.versionArg = none ∨ env.versionArg = some "" →
      Event.netLatestRelease ∈ (resolveVersion env).1 ∧
      (∀ v, extractVersion (fetchedLines env) = some v → v ≠ "" →
        (resolveVersion env).2 = .ok v) ∧
      (extractVersion (fetchedLines env) = some "" →
        (resolveVersion env).2 = .error .releaseNotFound ∧
        runExitCode (resolveVersion env).2 = 1) ∧
      (extractVersion (fetchedLines env) = none →
        (resolveVersion env).2 = .error (.pipelineFailed 1) ∧
        runExitCode (resolveVersion env).2 = 1)) ∧
    (resolveVersion
        { versionArg := none, releaseResponse := ["  \"tag_name\": \"v0.0.12\","] }).2 =
      .ok "0.0.12" := by
  refine ⟨?_, ?_, by decide⟩
  · intro env v hv hvne
    simp [resolveVersion, hv, hvne]
  · intro env hv
    have h0 : (match env.versionArg with | some v => v | none => "") = "" := by
      rcases hv with h | h <;> simp [h]
    refine ⟨?_, ?_, ?_, ?_⟩
    · rcases hext : extractVersion (fetchedLines env) with _ | w
      · simp [resolveVersion, h0, hext]
      · by_cases hw : w = "" <;> simp [resolveVersion, h0, hext, hw]
    · intro v hext hvne
      simp [resolveVersion, h0, hext, hvne]
    · intro hext
      simp [resolveVersion, h0, hext, runExitCode, Fatal.exitCode]
    · intro hext
      simp [resolveVersion, h0, hext, runExitCode, Fatal.exitCode]

/-- Counterexample to C4 as stated: the explicit version argument ""
still contacts the metadata endpoint, and a metadata response with no
tag field aborts through the failed extraction pipeline (grep status 1
under pipefail), which is not the ReleaseNotFound failure. -/
theorem c4_version_resolution_counterexample :
    Event.netLatestRelease ∈ (resolveVersion { versionArg := some "" }).1 ∧
    (resolveVersion
        { versionArg := none, releaseResponse := ["  \"name\": \"mcp-mux\","] }).2 =
      .error (.pipelineFailed 1) ∧
    (Except.error (Fatal.pipelineFailed 1) : Except Fatal String) ≠
      .error .releaseNotFound := by
  decide

/-- Witness for C4 at a concrete nonempty explicit version. -/
theorem c4_version_resolution_witness :
    (resolveVersion { versionArg := some "1.2.3" }).2 = .ok "1.2.3" ∧
    Event.netLatestRelease ∉ (resolveVersion { versionArg := some "1.2.3" }).1 :=
  c4_version_resolution.1 { versionArg := some "1.2.3" } "1.2.3" rfl (by decide)

/-- C5 (amended): the deb/rpm temporary artifact is removed after a
successful manager install invocation; when the install invocation
fails, errexit aborts the script at that command with its status, and
the temporary file is not removed. -/
theorem c5_temp_cleanup :
    ∀ (env : Env) (version arch : String), env.artifactDownloadOk = true →
      (env.managerInstallOk = true →
        Event.rmFile "/tmp/mcpmux.deb" ∈ (install_deb env version arch).1 ∧
        Event.rmFile "/tmp/mcpmux.rpm" ∈ (install_rpm env version arch).1) ∧
      (env.managerInstallOk = false →
        ((install_deb env version arch).2 =
            .error (.commandFailed "sudo apt-get install -y /tmp/mcpmux.deb"
              env.managerInstallCode) ∧
          Event.rmFile "/tmp/mcpmux.deb" ∉ (install_deb env version arch).1) ∧
        ((install_rpm env version arch).2 =
            .error (.commandFailed "sudo dnf install -y /tmp/mcpmux.rpm"
              env.managerInstallCode) ∧
          Event.rmFile "/tmp/mcpmux.rpm" ∉ (install_rpm env version arch).1)) := by
  intro env version arch h
  constructor
  · intro hm
    constructor <;> simp [install_deb, install_rpm, h, hm]
  · intro hm
    have hd : Event.rmFile "/tmp/mcpmux.deb" ∉
        (verify_signature env "/tmp/mcpmux.deb" version).1 := by
      intro hmem
      exact absurd (verify_signature_rmFile_only env "/tmp/mcpmux.deb" version
        "/tmp/mcpmux.deb" hmem) (by decide)
    have hr : Event.rmFile "/tmp/mcpmux.rpm" ∉
        (verify_signature env "/tmp/mcpmux.rpm" version).1 := by
      intro hmem
      exact absurd (verify_signature_rmFile_only env "/tmp/mcpmux.rpm" version
        "/tmp/mcpmux.rpm" hmem) (by decide)
    refine ⟨⟨?_, ?_⟩, ?_, ?_⟩ <;> simp [install_deb, install_rpm, h, hm, hd, hr]

/-- Counterexample to C5 as stated: with a failing apt-get install, the
run aborts at the install command and the temporary .deb file is never
removed. -/
theorem c5_temp_cleanup_counterexample :
    (install_deb
        { skipVerify := true, managerInstallOk := false, managerInstallCode := 100 }
        "0.0.12" "amd64").2 =
      .error (.commandFailed "sudo apt-get install -y /tmp/mcpmux.deb" 100) ∧
    Event.rmFile "/tmp/mcpmux.deb" ∉
      (install_deb
        { skipVerify := true, managerInstallOk := false, managerInstallCode := 100 }
        "0.0.12" "amd64").1 := by
  decide

/-- Witness for C5 at a concrete environment with a succeeding install. -/
theorem c5_temp_cleanup_witness :
    Event.rmFile "/tmp/mcpmux.deb" ∈ (install_deb {} "0.0.12" "amd64").1 :=
  ((c5_temp_cleanup {} "0.0.12" "amd64" rfl).1 rfl).1

end McpMux

namespace McpMux

/-- C7: with pacman selected, yay is preferred over paru; with neither
helper present the script warns, prints the manual remediation
instructions and exits with code 1, and the run never reaches the
AppImage fallback (no download, no user-local bin directory, no chmod
appears in the trace). -/
theorem c7_pacman_no_fallthrough :
    (∀ env : Env, env.hasYay = true →
      (install_pacman env).1 =
        [Event.msgInfo "Installing from AUR via yay...",
         Event.runCmd "yay -S mcpmux-bin"]) ∧
    (∀ env : Env, env.hasYay = false → env.hasParu = false →
      (install_pacman env).2 = .error .noAurHelper ∧
      runExitCode (install_pacman env).2 = 1 ∧
      Event.warnNoAurHelper ∈ (install_pacman env).1 ∧
      Event.msgEcho "Option 1: Install an AUR helper first:" ∈ (install_pacman env).1) ∧
    (∀ (env : Env) (v arch0 : String),
      env.hasCurl = true → archMap env.archId = some arch0 →
      env.versionArg = some v → v ≠ "" →
      env.hasAptRepoConfigured = false → env.hasAptGet = false → env.hasDnf = false →
      env.hasPacman = true → env.hasYay = false → env.hasParu = false →
      (installRun env).2 = .error .noAurHelper ∧
      runExitCode (installRun env).2 = 1 ∧
      (∀ u, Event.netDownload u ∉ (installRun env).1) ∧
      (∀ p, Event.chmodExec p ∉ (installRun env).1) ∧
      (∀ d, Event.mkdirP d ∉ (installRun env).1)) := by
  refine ⟨?_, ?_, ?_⟩
  · intro env h
    simp [install_pacman, h]
  · intro env hy hp
    simp [install_pacman, hy, hp, runExitCode, Fatal.exitCode]
  · intro env v arch0 hcurl harch hv hvne hrepo hapt hdnf hpac hy hp
    simp [installRun, hcurl, harch, resolveVersion, hv, hvne, dispatch, hrepo, hapt,
      hdnf, hpac, install_pacman, hy, hp, runExitCode, Fatal.exitCode]

/-- Witness for C7 at a concrete environment: pacman present, no
helper. -/
theorem c7_pacman_no_fallthrough_witness :
    (installRun { versionArg := some "0.0.12", hasPacman := true }).2 =
      .error .noAurHelper ∧
    runExitCode (installRun { versionArg := some "0.0.12", hasPacman := true }).2 = 1 :=
  ⟨(c7_pacman_no_fallthrough.2.2 { versionArg := some "0.0.12", hasPacman := true }
      "0.0.12" "amd64" rfl (by decide) rfl (by decide) rfl rfl rfl rfl rfl rfl).1,
   (c7_pacman_no_fallthrough.2.2 { versionArg := some "0.0.12", hasPacman := true }
      "0.0.12" "amd64" rfl (by decide) rfl (by decide) rfl rfl rfl rfl rfl rfl).2.1⟩

/-- C8 (amended): on the AppImage fallback path with a successful
download, the run completes successfully, the installed file is marked
executable, and the PATH warning is emitted if and only if no entry of
the colon-separated PATH listing matches the install directory under
the `grep -qx` pattern semantics, in which each `.` of the directory
string matches any single character. -/
theorem c8_appimage_exec_and_path (env : Env) (version arch : String)
    (h : env.artifactDownloadOk = true) :
    (install_appimage env version arch).2 = .ok () ∧
    Event.chmodExec (env.home ++ "/.local/bin" ++ "/McpMux.AppImage") ∈
      (install_appimage env version arch).1 ∧
    (Event.warnPathMissing ∈ (install_appimage env version arch).1 ↔
      (pathEntries env.pathVar).any
        (fun e => breMatch (env.home ++ "/.local/bin") e) = false) := by
  have hw := verify_signature_no_path_warn env
    (env.home ++ "/.local/bin" ++ "/McpMux.AppImage") version
  cases hp : (pathEntries env.pathVar).any
      (fun e => breMatch (env.home ++ "/.local/bin") e) <;>
    simp [install_appimage, h, hp, hw]

/-- Counterexample to C8 as stated: with HOME=/r and PATH=/r/Xlocal/bin
the install directory string /r/.local/bin is absent from the PATH
listing, yet no warning is emitted, because grep treats each `.` of the
directory as a regex wildcard and matches the entry /r/Xlocal/bin. -/
theorem c8_appimage_counterexample :
    "/r/.local/bin" ∉ pathEntries "/r/Xlocal/bin" ∧
    (install_appimage { home := "/r", pathVar := "/r/Xlocal/bin", skipVerify := true }
        "0.0.12" "amd64").2 = .ok () ∧
    Event.warnPathMissing ∉
      (install_appimage { home := "/r", pathVar := "/r/Xlocal/bin", skipVerify := true }
        "0.0.12" "amd64").1 := by
  decide

/-- Witness for C8 at a concrete environment whose PATH lacks any
matching entry, so the warning is emitted. -/
theorem c8_appimage_exec_and_path_witness :
    (install_appimage { pathVar := "/usr/bin:/bin", skipVerify := true }
        "0.0.12" "amd64").2 = .ok () ∧
    Event.chmodExec ("/root" ++ "/.local/bin" ++ "/McpMux.AppImage") ∈
      (install_appimage { pathVar := "/usr/bin:/bin", skipVerify := true }
        "0.0.12" "amd64").1 ∧
    Event.warnPathMissing ∈
      (install_appimage { pathVar := "/usr/bin:/bin", skipVerify := true }
        "0.0.12" "amd64").1 :=
  ⟨(c8_appimage_exec_and_path _ "0.0.12" "amd64" rfl).1,
   (c8_appimage_exec_and_path _ "0.0.12" "amd64" rfl).2.1,
   ((c8_appimage_exec_and_path _ "0.0.12" "amd64" rfl).2.2).mpr (by decide)⟩

/-- C9: one run of the APT setup script fixes the keyring and
source-list contents as a function of the environment alone, so a second
run under the same environment overwrites both files with identical
bytes and the resulting file-system state equals the state after a
single run. -/
theorem c9_apt_setup_idempotent :
    ∀ (env : AptEnv) (fs : AptFS),
      (aptSetupRun env (aptSetupRun env fs).2).2 = (aptSetupRun env fs).2 ∧
      (env.isRoot = true → env.keyPipelineOk = true →
        (aptSetupRun env fs).2.keyring = some ⟨env.keyData⟩ ∧
        (aptSetupRun env fs).2.sources = some (mcpmuxSourceLine env)) := by
  intro env fs
  cases hr : env.isRoot <;> cases hk : env.keyPipelineOk <;>
    cases hu : env.aptUpdateOk <;> cases hi : env.aptInstallOk <;>
    simp [aptSetupRun, hr, hk, hu, hi]

/-- Witness for C9 at a concrete environment and empty initial state. -/
theorem c9_apt_setup_idempotent_witness :
    (aptSetupRun {} ⟨none, none⟩).2.keyring = some ⟨"armored-key"⟩ ∧
    (aptSetupRun {} ⟨none, none⟩).2.sources = some (mcpmuxSourceLine {}) :=
  (c9_apt_setup_idempotent {} ⟨none, none⟩).2 rfl rfl

/-- Helper: the root route served to any request, as a function of the
sniff condition. -/
theorem handleRequest_root (ua raw : Option String) :
    handleRequest ⟨"/", ua, raw⟩ =
      if isBrowserUA (ua.getD "") && !truthy raw then
        { status := 200, contentType := "text/html; charset=UTF-8",
          body := .landingPageBody }
      else
        { status := 200, contentType := "text/plain; charset=utf-8",
          body := .installScriptBody } := rfl

/-- Helper: the explicit script route ignores the user-agent and query
entirely. -/
theorem handleRequest_install_sh (ua raw : Option String) :
    handleRequest ⟨"/install.sh", ua, raw⟩ =
      { status := 200, contentType := "text/plain; charset=utf-8",
        body := .installScriptBody } := rfl

/-- C10: every raw-mode GET of the root path (non-browser user agent,
missing header included, or truthy raw query parameter) and every GET of
/install.sh return the same constant install-script body with the same
Content-Type, and a request without a User-Agent header is always served
the raw script, never the landing page. -/
theorem c10_front_end_constant_script :
    (∀ r1 r2 : Request, r1.path = "/" → rawModeRequest r1 = true →
      r2.path = "/install.sh" →
      (handleRequest r1).body = .installScriptBody ∧
      (handleRequest r2).body = .installScriptBody ∧
      (handleRequest r1).body = (handleRequest r2).body ∧
      (handleRequest r1).contentType = "text/plain; charset=utf-8" ∧
      (handleRequest r2).contentType = "text/plain; charset=utf-8") ∧
    (∀ r : Request, r.path = "/" → r.userAgent = none →
      (handleRequest r).body = .installScriptBody) := by
  constructor
  · intro r1 r2 h1 hraw h2
    obtain ⟨p1, ua1, raw1⟩ := r1
    obtain ⟨p2, ua2, raw2⟩ := r2
    simp only [Request.path] at h1 h2
    subst h1; subst h2
    have hb : (isBrowserUA (ua1.getD "") && !truthy raw1) = false := by
      rcases hb1 : isBrowserUA (ua1.getD "") <;>
        rcases hb2 : truthy raw1 <;> simp_all [rawModeRequest]
    rw [handleRequest_root, handleRequest_install_sh, hb]
    simp
  · intro r h1 h2
    obtain ⟨p, ua, raw⟩ := r
    simp only [Request.path] at h1
    simp only [Request.userAgent] at h2
    subst h1; subst h2
    rw [handleRequest_root]
    have hb : isBrowserUA "" = false := by decide
    simp [hb]

/-- Witness for C10 at concrete requests: a curl fetch of the root and a
browser fetch of /install.sh. -/
theorem c10_front_end_constant_script_witness :
    (handleRequest ⟨"/", some "curl/8.5.0", none⟩).body = .installScriptBody ∧
    (handleRequest ⟨"/install.sh", some "Mozilla/5.0", none⟩).body =
      .installScriptBody ∧
    (handleRequest ⟨"/", some "curl/8.5.0", none⟩).contentType =
      "text/plain; charset=utf-8" :=
  ⟨(c10_front_end_constant_script.1 ⟨"/", some "curl/8.5.0", none⟩
      ⟨"/install.sh", some "Mozilla/5.0", none⟩ rfl (by decide) rfl).1,
   (c10_front_end_constant_script.1 ⟨"/", some "curl/8.5.0", none⟩
      ⟨"/install.sh", some "Mozilla/5.0", none⟩ rfl (by decide) rfl).2.1,
   (c10_front_end_constant_script.1 ⟨"/", some "curl/8.5.0", none⟩
      ⟨"/install.sh", some "Mozilla/5.0", none⟩ rfl (by decide) rfl).2.2.2.1⟩

end McpMux
